import Mathlib

/-!
# Verification of PyPacker Lite (pypacker1.0.1.py)

A shallow embedding of the PyInstaller GUI wrapper. The filesystem is a
parameter `f : String → Bool` (os.path.exists), the absolute-path resolver
is a parameter `ab : String → String` (os.path.abspath), and the Python
executable is a parameter `py : String` (sys.executable). Subprocess
behaviour is a parameter as well: the lines the merged stdout/stderr pipe
produces, and either a return code or the exception message raised while
spawning or streaming.
-/

namespace PyPacker

/-- `str.endswith` over the underlying character lists. -/
def strEndsWith (s suf : String) : Bool := List.isSuffixOf suf.data s.data

/-- `str.startswith` over the underlying character lists. -/
def strStartsWith (s pre : String) : Bool := List.isPrefixOf pre.data s.data

/-- Whitespace as stripped by Python `str.rstrip()` (ASCII range). -/
def pyIsSpace (c : Char) : Bool :=
  c == ' ' || c == '\t' || c == '\n' || c == '\r' || c == '\x0B' || c == '\x0C'

/-- Python `str.rstrip()`: drop trailing whitespace. -/
def pyRstrip (s : String) : String :=
  String.mk ((s.data.reverse.dropWhile pyIsSpace).reverse)

/-- POSIX `os.path.dirname`: everything before the final slash, with
trailing slashes of the head stripped unless the head is all slashes. -/
def pyDirname (p : String) : String :=
  let cs := p.data
  match cs.reverse.findIdx? (fun c => c == '/') with
  | none => ""
  | some k =>
    let head := cs.take (cs.length - k)
    if head.all (fun c => c == '/') then String.mk head
    else String.mk ((head.reverse.dropWhile (fun c => c == '/')).reverse)

/-- POSIX `os.path.join` restricted to two components. -/
def pyJoin (a b : String) : String :=
  if strStartsWith b "/" then b
  else if a = "" || strEndsWith a "/" then a ++ b
  else a ++ "/" ++ b

/-- The arguments of `BuildThread.__init__` (script path, output folder,
onefile flag, noconsole flag, optional icon path). -/
structure BuildConfig where
  script_path : String
  output_folder : String
  onefile : Bool
  noconsole : Bool
  icon_path : Option String
deriving DecidableEq, Repr

/-- The command list `cmd` built by `BuildThread.run` (lines 42-62 of the
source): base list, then `-F`/`-D` from onefile, then `-w` if noconsole,
then `--icon path` when the icon path is truthy and exists, then the
script path. -/
def buildCmd (f : String → Bool) (py : String) (c : BuildConfig) : List String :=
  let cmd := [py, "-m", "PyInstaller", "--distpath", c.output_folder, "--noconfirm"]
  let cmd := if c.onefile then cmd ++ ["-F"] else cmd ++ ["-D"]
  let cmd := if c.noconsole then cmd ++ ["-w"] else cmd
  let cmd :=
    match c.icon_path with
    | some ip => if ip ≠ "" && f ip then cmd ++ ["--icon", ip] else cmd
    | none => cmd
  cmd ++ [c.script_path]

/-- The icon arguments contributed to the command, as the claim enumerates
them: present exactly when an icon path was given (truthy) and exists. -/
def iconArgs (f : String → Bool) (c : BuildConfig) : List String :=
  match c.icon_path with
  | some ip => if ip ≠ "" && f ip then ["--icon", ip] else []
  | none => []

/-- An observable event emitted by `BuildThread.run`: a `log_signal`
message or the `finished_signal` verdict. -/
inductive RunEvent
  | log (msg : String)
  | finished (ok : Bool)
deriving DecidableEq, Repr

/-- The `"-" * 50` separator line. -/
def dashLine : String := String.mk (List.replicate 50 '-')

/-- The event trace of `BuildThread.run` (lines 64-93): the command echo
and a separator, then each pipe line rstripped and forwarded in order,
then on a return code either the success or the failure epilogue, or on
an exception its message; `finished_signal` carries `true` exactly for
return code 0. `lines` are the lines of the merged stdout/stderr pipe
that were produced before the outcome. -/
def runEvents (f : String → Bool) (py : String) (c : BuildConfig)
    (lines : List String) (out : Except String Int) : List RunEvent :=
  let cmd := buildCmd f py c
  [RunEvent.log ("执行命令: " ++ String.intercalate " " cmd), RunEvent.log dashLine]
  ++ lines.map (fun l => RunEvent.log (pyRstrip l))
  ++ match out with
     | Except.ok rc =>
        if rc = 0 then
          [RunEvent.log dashLine, RunEvent.log "打包成功!", RunEvent.finished true]
        else
          [RunEvent.log dashLine, RunEvent.log "打包失败", RunEvent.finished false]
     | Except.error e =>
        [RunEvent.log ("执行异常: " ++ e), RunEvent.finished false]

/-- The payload of a `finished_signal` event. -/
def finishedOf : RunEvent → Option Bool
  | RunEvent.finished b => some b
  | RunEvent.log _ => none

/-- The boolean carried by the (first) `finished_signal` emission of a
trace, if any. -/
def reportedOutcome (evs : List RunEvent) : Option Bool :=
  (evs.filterMap finishedOf).head?

/-- How a standard stream of the child process is wired. -/
inductive StdioMode
  | pipe
  | stdoutMerge
deriving DecidableEq, Repr

/-- The `subprocess.Popen` call of `BuildThread.run` (lines 68-74):
stdout is a pipe, stderr is merged into stdout, cwd is the script's
directory. -/
structure PopenSpec where
  args : List String
  stdout : StdioMode
  stderr : StdioMode
  cwd : String
deriving DecidableEq, Repr

/-- The spawn performed by `BuildThread.run`. -/
def buildPopen (f : String → Bool) (py : String) (ab : String → String)
    (c : BuildConfig) : PopenSpec :=
  { args := buildCmd f py c
    stdout := StdioMode.pipe
    stderr := StdioMode.stdoutMerge
    cwd := pyDirname (ab c.script_path) }

/-- The window state the claims depend on: the selected script, the
PyInstaller availability flag, the option widgets and the pack button. -/
structure WindowState where
  current_script : Option String
  pyinstaller_available : Bool
  onefile_checked : Bool
  noconsole_checked : Bool
  icon_text : String
  pack_btn_enabled : Bool
  path_edit_text : String
deriving DecidableEq, Repr

/-- `PyPackerWindow.on_file_dropped` (lines 432-438): accept the path when
it exists on disk or merely ends with `.py`; then record it and enable
the pack button. -/
def on_file_dropped (f : String → Bool) (file_path : String)
    (st : WindowState) : WindowState :=
  if f file_path || strEndsWith file_path ".py" then
    { st with
        path_edit_text := file_path
        current_script := some file_path
        pack_btn_enabled := true }
  else st

/-- `PyPackerWindow.dropEvent` (lines 403-420): when the event has URLs,
walk them in order and hand the first local path ending in `.py` to
`on_file_dropped`, then break. -/
def dropEvent (f : String → Bool) (hasUrls : Bool) (localPaths : List String)
    (st : WindowState) : WindowState :=
  if hasUrls then
    match localPaths.find? (fun p => strEndsWith p ".py") with
    | some p => on_file_dropped f p st
    | none => st
  else st

/-- `PyPackerWindow.browse_file` (lines 440-450): a nonempty dialog result
is handed to `on_file_dropped`. -/
def browse_file (f : String → Bool) (dialogResult : String)
    (st : WindowState) : WindowState :=
  if dialogResult ≠ "" then on_file_dropped f dialogResult st else st

/-- The outcome of `PyPackerWindow.start_pack`: the updated window state,
the configuration of the `BuildThread` started (if any), and the message
box shown on an early return (if any). -/
structure StartPackResult where
  state : WindowState
  started : Option BuildConfig
  warning : Option String
deriving DecidableEq, Repr

/-- `PyPackerWindow.start_pack` (lines 499-534): early returns with a
message box when no script is selected, PyInstaller is unavailable, or
the script does not exist; otherwise the output folder is the `输出`
subdirectory of the script's directory and a `BuildThread` is started
with the widget state, the pack button disabled. -/
def start_pack (f : String → Bool) (ab : String → String)
    (st : WindowState) : StartPackResult :=
  match st.current_script with
  | none => ⟨st, none, some "请先选择脚本"⟩
  | some script =>
    if st.pyinstaller_available = false then
      ⟨st, none, some "请先安装 PyInstaller"⟩
    else if f script = false then
      ⟨st, none, some "文件不存在"⟩
    else
      let script_dir := pyDirname (ab script)
      let output_folder := pyJoin script_dir "输出"
      ⟨{ st with pack_btn_enabled := false },
       some { script_path := script
              output_folder := output_folder
              onefile := st.onefile_checked
              noconsole := st.noconsole_checked
              icon_path := if st.icon_text = "" then none else some st.icon_text },
       none⟩

/-- The UI effects of `PyPackerWindow.on_pack_finished` (lines 536-552):
hide the progress bar, re-enable the pack button, and on success only ask
whether to open the output directory. -/
structure FinishUi where
  progress_visible : Bool
  pack_btn_enabled : Bool
  message_box : Option String
deriving DecidableEq, Repr

/-- `PyPackerWindow.on_pack_finished`. -/
def on_pack_finished (success : Bool) : FinishUi :=
  { progress_visible := false
    pack_btn_enabled := true
    message_box := if success then some "打包完成，是否打开输出目录？" else none }

/-- The two UI actions that spawn a background thread. -/
inductive UiAction
  | startPack
  | installPyInstaller
deriving DecidableEq, Repr

/-- The pip command run by the thread `install_pyinstaller` spawns
(lines 473-477). -/
def installCmd (py : String) : List String :=
  [py, "-m", "pip", "install", "pyinstaller"]

/-- Background threads spawned by one invocation of a UI action:
`start_pack` starts a `BuildThread` when it does not return early
(line 534), `install_pyinstaller` always starts a `threading.Thread`
(line 497). -/
def threadsSpawnedBy (f : String → Bool) (ab : String → String)
    (st : WindowState) : UiAction → Nat
  | UiAction.startPack => if (start_pack f ab st).started.isSome then 1 else 0
  | UiAction.installPyInstaller => 1

/-- The command the spawned background thread runs, if one is spawned. -/
def backgroundTask (f : String → Bool) (ab : String → String) (py : String)
    (st : WindowState) : UiAction → Option (List String)
  | UiAction.startPack => (start_pack f ab st).started.map (fun c => buildCmd f py c)
  | UiAction.installPyInstaller => some (installCmd py)

/-- Total background threads spawned over an execution, modelled as a
sequence of UI actions each taken from some window state. -/
def threadsSpawnedInRun (f : String → Bool) (ab : String → String)
    (steps : List (UiAction × WindowState)) : Nat :=
  (steps.map (fun s => threadsSpawnedBy f ab s.2 s.1)).sum

/-- Sample filesystem in which no path exists. -/
def fsNone : String → Bool := fun _ => false

/-- Sample filesystem in which every path exists. -/
def fsAll : String → Bool := fun _ => true

/-- Sample absolute-path resolver that leaves paths unchanged (already
absolute). -/
def abId : String → String := fun p => p

/-- Sample build configuration. -/
def cfgSample : BuildConfig :=
  { script_path := "/home/u/app.py"
    output_folder := "/home/u/输出"
    onefile := false
    noconsole := false
    icon_path := none }

/-- Sample window state with a selected script and PyInstaller available. -/
def stSample : WindowState :=
  { current_script := some "/home/u/app.py"
    pyinstaller_available := true
    onefile_checked := true
    noconsole_checked := false
    icon_text := ""
    pack_btn_enabled := true
    path_edit_text := "/home/u/app.py" }

/-- Decomposition of `buildCmd` into the base list, the mode flag, the
noconsole flag, the icon arguments and the trailing script path. -/
theorem buildCmd_eq (f : String → Bool) (py : String) (c : BuildConfig) :
    buildCmd f py c =
      [py, "-m", "PyInstaller", "--distpath", c.output_folder, "--noconfirm"]
        ++ (if c.onefile then ["-F"] else ["-D"])
        ++ (if c.noconsole then ["-w"] else [])
        ++ iconArgs f c
        ++ [c.script_path] := by
  unfold buildCmd iconArgs
  cases h1 : c.onefile <;> cases h2 : c.noconsole <;> cases h3 : c.icon_path <;>
    simp <;> split <;> simp

/-- Log events carry no `finished_signal` payload. -/
theorem filterMap_finishedOf_logs (g : String → String) (ls : List String) :
    (ls.map (fun l => RunEvent.log (g l))).filterMap finishedOf = [] := by
  induction ls with
  | nil => rfl
  | cons a as ih => simp [finishedOf, ih]

/-- C1: `BuildThread.run` builds the argument list as the Python
executable, `-m`, `PyInstaller`, `--distpath`, the output folder,
`--noconfirm`, then `-F` if onefile else `-D`, then `-w` if noconsole,
then `--icon` and the icon path when one was given and exists, and
finally the script path as the last element. -/
theorem C1_command_construction (f : String → Bool) (py : String) (c : BuildConfig) :
    buildCmd f py c =
      [py, "-m", "PyInstaller", "--distpath", c.output_folder, "--noconfirm"]
        ++ (if c.onefile then ["-F"] else ["-D"])
        ++ (if c.noconsole then ["-w"] else [])
        ++ iconArgs f c
        ++ [c.script_path]
    ∧ (buildCmd f py c).getLast? = some c.script_path := by
  refine ⟨buildCmd_eq f py c, ?_⟩
  rw [buildCmd_eq, List.getLast?_append_cons]
  rfl

/-- C2: the build reports success (`finished_signal` carries `true`) iff
the subprocess return code is zero; a nonzero return code or an
exception while spawning or streaming reports failure. -/
theorem C2_exit_code_success (f : String → Bool) (py : String) (c : BuildConfig)
    (lines : List String) (out : Except String Int) :
    reportedOutcome (runEvents f py c lines out) =
      some (match out with
            | Except.ok rc => decide (rc = 0)
            | Except.error _ => false)
    ∧ (reportedOutcome (runEvents f py c lines out) = some true ↔ out = Except.ok 0) := by
  have hbase :
      reportedOutcome (runEvents f py c lines out) =
        some (match out with
              | Except.ok rc => decide (rc = 0)
              | Except.error _ => false) := by
    cases out with
    | ok rc =>
      by_cases h : rc = 0 <;>
        simp [runEvents, reportedOutcome, List.filterMap_append,
          filterMap_finishedOf_logs, finishedOf, h]
    | error e =>
      simp [runEvents, reportedOutcome, List.filterMap_append,
        filterMap_finishedOf_logs, finishedOf]
  refine ⟨hbase, ?_⟩
  rw [hbase]
  cases out with
  | ok rc =>
    constructor
    · intro h
      have : (decide (rc = 0)) = true := by
        simpa using h
      simp_all
    · intro h
      injection h with h2
      simp [h2]
  | error e =>
    constructor
    · intro h
      simp at h
    · intro h
      cases h

/-- C3 counterexample: unchecking the onefile box does not leave the
command unchanged-minus-`-F`; it adds the directory-mode flag `-D`, which
the checked command does not contain. `cfgSample` has onefile unchecked. -/
theorem C3_counterexample :
    "-D" ∈ buildCmd fsNone "python" cfgSample
    ∧ "-D" ∉ buildCmd fsNone "python" { cfgSample with onefile := true }
    ∧ buildCmd fsNone "python" cfgSample
        ≠ (buildCmd fsNone "python" { cfgSample with onefile := true }).filter
            (fun s => s ≠ "-F") := by
  refine ⟨by decide, by decide, by decide⟩

/-- C3 amended: relative to the baseline command (onefile checked,
noconsole unchecked), the noconsole checkbox inserts exactly `-w` when
checked and nothing when unchecked, and the onefile checkbox selects the
mode-flag slot: `-F` when checked, `-D` when unchecked; everything else
is passed through unchanged. -/
theorem C3_flags_amended (f : String → Bool) (py : String) (c : BuildConfig) :
    buildCmd f py c =
      (buildCmd f py { c with onefile := true, noconsole := false }).take 6
        ++ [if c.onefile then "-F" else "-D"]
        ++ (if c.noconsole then ["-w"] else [])
        ++ (buildCmd f py { c with onefile := true, noconsole := false }).drop 7 := by
  cases h1 : c.onefile <;> cases h2 : c.noconsole <;>
    simp [buildCmd_eq, iconArgs, h1, h2]

/-- C8: the command list contains exactly one of the mode flags `-F` and
`-D` — one for each checkbox state — provided none of the user-supplied
strings is itself one of those two flags. -/
theorem C8_mode_flag_exactly_one (f : String → Bool) (py : String) (c : BuildConfig)
    (h1 : py ≠ "-F") (h2 : py ≠ "-D")
    (h3 : c.output_folder ≠ "-F") (h4 : c.output_folder ≠ "-D")
    (h5 : c.script_path ≠ "-F") (h6 : c.script_path ≠ "-D")
    (h7 : ∀ ip, c.icon_path = some ip → ip ≠ "-F" ∧ ip ≠ "-D") :
    ((buildCmd f py c).count "-F" = if c.onefile then 1 else 0)
    ∧ ((buildCmd f py c).count "-D" = if c.onefile then 0 else 1)
    ∧ (buildCmd f py c).count "-F" + (buildCmd f py c).count "-D" = 1 := by
  have hiF : (iconArgs f c).count "-F" = 0 := by
    rw [List.count_eq_zero]
    intro hmem
    unfold iconArgs at hmem
    cases hip : c.icon_path with
    | none => simp [hip] at hmem
    | some ip =>
      rw [hip] at hmem
      rcases h7 ip hip with ⟨hF, _⟩
      by_cases hc : (ip ≠ "" && f ip) = true <;> simp [hc] at hmem <;> simp_all
  have hiD : (iconArgs f c).count "-D" = 0 := by
    rw [List.count_eq_zero]
    intro hmem
    unfold iconArgs at hmem
    cases hip : c.icon_path with
    | none => simp [hip] at hmem
    | some ip =>
      rw [hip] at hmem
      rcases h7 ip hip with ⟨_, hD⟩
      by_cases hc : (ip ≠ "" && f ip) = true <;> simp [hc] at hmem <;> simp_all
  have hF : (buildCmd f py c).count "-F" = if c.onefile then 1 else 0 := by
    rw [buildCmd_eq]
    cases h1' : c.onefile <;> cases h2' : c.noconsole <;>
      simp [List.count_append, List.count_cons, hiF, h1, h3, h5]
  have hD : (buildCmd f py c).count "-D" = if c.onefile then 0 else 1 := by
    rw [buildCmd_eq]
    cases h1' : c.onefile <;> cases h2' : c.noconsole <;>
      simp [List.count_append, List.count_cons, hiD, h2, h4, h6]
  refine ⟨hF, hD, ?_⟩
  rw [hF, hD]
  cases c.onefile <;> simp

/-- C8 witness: a concrete command contains exactly one mode flag. -/
theorem C8_witness :
    (buildCmd fsNone "python" cfgSample).count "-F"
      + (buildCmd fsNone "python" cfgSample).count "-D" = 1 :=
  (C8_mode_flag_exactly_one fsNone "python" cfgSample (by decide) (by decide)
    (by decide) (by decide) (by decide) (by decide)
    (fun ip h => nomatch h)).2.2

/-- C5: stderr is merged into stdout on the spawn, and every pipe line is
forwarded to the log — trailing whitespace stripped — in the order the
subprocess emits the lines: right after the two header events the trace
carries exactly the rstripped lines. -/
theorem C5_stream_lines (f : String → Bool) (py : String) (ab : String → String)
    (c : BuildConfig) (lines : List String) (out : Except String Int) :
    (buildPopen f py ab c).stderr = StdioMode.stdoutMerge
    ∧ (buildPopen f py ab c).stdout = StdioMode.pipe
    ∧ ((runEvents f py c lines out).drop 2).take lines.length
        = lines.map (fun l => RunEvent.log (pyRstrip l)) := by
  refine ⟨rfl, rfl, ?_⟩
  show ((_ :: _ :: (lines.map _ ++ _)).drop 2).take _ = _
  rw [List.drop_succ_cons, List.drop_succ_cons, List.drop_zero]
  exact List.take_left' (by simp)

/-- C4 counterexample: a build whose subprocess exits with return code 1
reports failure, and `on_pack_finished` shows no message box for a failed
build — the failure-path message box the claim asserts does not exist. -/
theorem C4_counterexample :
    reportedOutcome (runEvents fsNone "python" cfgSample [] (Except.ok 1)) = some false
    ∧ (on_pack_finished false).message_box = none := by
  refine ⟨by decide, rfl⟩

/-- C4 amended: on a nonzero exit code the failure is reported by logging
`打包失败` and emitting `finished_signal(False)`; `on_pack_finished`
then hides the progress bar and re-enables the pack button but shows no
message box — a message box (the open-folder question) appears only on
success. -/
theorem C4_failure_handling_amended (f : String → Bool) (py : String)
    (c : BuildConfig) (lines : List String) (rc : Int) (h : rc ≠ 0) :
    reportedOutcome (runEvents f py c lines (Except.ok rc)) = some false
    ∧ RunEvent.log "打包失败" ∈ runEvents f py c lines (Except.ok rc)
    ∧ (on_pack_finished false).message_box = none
    ∧ (on_pack_finished false).pack_btn_enabled = true
    ∧ (on_pack_finished false).progress_visible = false
    ∧ (on_pack_finished true).message_box = some "打包完成，是否打开输出目录？" := by
  refine ⟨?_, ?_, rfl, rfl, rfl, rfl⟩
  · simp [runEvents, reportedOutcome, List.filterMap_append,
      filterMap_finishedOf_logs, finishedOf, h]
  · simp [runEvents, h]

/-- C4 witness: the amended failure behaviour at return code 2. -/
theorem C4_failure_witness :
    reportedOutcome (runEvents fsNone "python" cfgSample ["line"] (Except.ok 2))
        = some false
    ∧ RunEvent.log "打包失败" ∈ runEvents fsNone "python" cfgSample ["line"] (Except.ok 2)
    ∧ (on_pack_finished false).message_box = none
    ∧ (on_pack_finished false).pack_btn_enabled = true
    ∧ (on_pack_finished false).progress_visible = false
    ∧ (on_pack_finished true).message_box = some "打包完成，是否打开输出目录？" :=
  C4_failure_handling_amended fsNone "python" cfgSample ["line"] 2 (by decide)

/-- The configuration `start_pack` produces from `stSample`. -/
def cfgStarted : BuildConfig :=
  { script_path := "/home/u/app.py"
    output_folder := "/home/u/输出"
    onefile := true
    noconsole := false
    icon_path := none }

/-- C6 counterexample: an execution that installs PyInstaller and then
starts a build spawns two background threads, and the install thread runs
pip, not the packaging subprocess. -/
theorem C6_counterexample :
    threadsSpawnedInRun fsAll abId
        [(UiAction.installPyInstaller, stSample), (UiAction.startPack, stSample)] = 2
    ∧ backgroundTask fsAll abId "python" stSample UiAction.installPyInstaller
        = some (installCmd "python")
    ∧ "PyInstaller" ∉ installCmd "python" := by
  refine ⟨by decide, rfl, by decide⟩

/-- C6 amended: each UI action spawns at most one background thread per
invocation — `start_pack` spawns its `BuildThread` (which runs the
packaging command) exactly when it does not return early, and
`install_pyinstaller` spawns a thread running pip — so an execution may
spawn several background threads, one per such invocation. -/
theorem C6_threads_amended (f : String → Bool) (ab : String → String)
    (py : String) (st : WindowState) :
    (∀ a, threadsSpawnedBy f ab st a ≤ 1)
    ∧ (threadsSpawnedBy f ab st UiAction.startPack = 1
        ↔ (start_pack f ab st).started.isSome = true)
    ∧ backgroundTask f ab py st UiAction.installPyInstaller = some (installCmd py)
    ∧ (∀ cfg, (start_pack f ab st).started = some cfg →
        backgroundTask f ab py st UiAction.startPack = some (buildCmd f py cfg)) := by
  refine ⟨?_, ?_, rfl, ?_⟩
  · intro a
    cases a with
    | startPack =>
      by_cases h : (start_pack f ab st).started.isSome = true <;>
        simp [threadsSpawnedBy, h]
    | installPyInstaller => exact Nat.le_refl 1
  · by_cases h : (start_pack f ab st).started.isSome = true <;>
      simp [threadsSpawnedBy, h]
  · intro cfg h
    simp [backgroundTask, h]

/-- C6 witness: on the sample state `start_pack` does start a build
thread, and that thread runs the packaging command. -/
theorem C6_threads_witness :
    (start_pack fsAll abId stSample).started = some cfgStarted
    ∧ backgroundTask fsAll abId "python" stSample UiAction.startPack
        = some (buildCmd fsAll "python" cfgStarted) := by
  have h : (start_pack fsAll abId stSample).started = some cfgStarted := by decide
  exact ⟨h, (C6_threads_amended fsAll abId "python" stSample).2.2.2 cfgStarted h⟩

/-- `find?` on a list whose first satisfying element is `x` returns `x`. -/
theorem find?_append_first {α : Type} (q : α → Bool) (x : α) :
    ∀ (pre post : List α), (∀ y ∈ pre, q y = false) → q x = true →
      (pre ++ x :: post).find? q = some x := by
  intro pre post hpre hx
  induction pre with
  | nil => simp [List.find?_cons, hx]
  | cons a as ih =>
    have ha : q a = false := hpre a (List.mem_cons_self a as)
    have hrest : ∀ y ∈ as, q y = false := fun y hy => hpre y (List.mem_cons_of_mem a hy)
    simp [List.find?_cons, ha, ih hrest]

/-- C7: among the dropped URLs the first local path ending in `.py` is
selected as the current script (enabling the pack button), paths not
ending in `.py` are skipped (a drop with none leaves the state
unchanged, as does a drop without URLs), and a nonempty browse-dialog
choice goes through the same `on_file_dropped` path. -/
theorem C7_drop_and_browse (f : String → Bool) (st : WindowState)
    (pre post : List String) (p : String)
    (h1 : ∀ q ∈ pre, strEndsWith q ".py" = false)
    (h2 : strEndsWith p ".py" = true) :
    (dropEvent f true (pre ++ p :: post) st).current_script = some p
    ∧ (dropEvent f true (pre ++ p :: post) st).pack_btn_enabled = true
    ∧ dropEvent f true pre st = st
    ∧ (∀ ch, ch ≠ "" → browse_file f ch st = on_file_dropped f ch st)
    ∧ dropEvent f false (pre ++ p :: post) st = st := by
  have hfind : (pre ++ p :: post).find? (fun q => strEndsWith q ".py") = some p :=
    find?_append_first (fun q => strEndsWith q ".py") p pre post h1 h2
  have hnone : pre.find? (fun q => strEndsWith q ".py") = none :=
    List.find?_eq_none.mpr (fun y hy => by simp [h1 y hy])
  have hdropped : on_file_dropped f p st =
      { st with path_edit_text := p, current_script := some p,
                pack_btn_enabled := true } := by
    unfold on_file_dropped
    simp [h2]
  refine ⟨?_, ?_, ?_, ?_, ?_⟩
  · simp [dropEvent, hfind, hdropped]
  · simp [dropEvent, hfind, hdropped]
  · simp [dropEvent, hnone]
  · intro ch hch
    simp [browse_file, hch]
  · simp [dropEvent]

/-- C7 witness: dropping a text file, a Python file and another Python
file selects the first Python file. -/
theorem C7_witness :
    (dropEvent fsNone true (["readme.txt"] ++ "a.py" :: ["b.py"]) stSample).current_script
      = some "a.py" :=
  (C7_drop_and_browse fsNone stSample ["readme.txt"] ["b.py"] "a.py"
    (by decide) (by decide)).1

/-- If `start_pack` started a build, the state had a selected script,
PyInstaller was available, the script existed, and the configuration is
determined by the widget state with the fixed output folder. -/
theorem start_pack_started_eq (f : String → Bool) (ab : String → String)
    (st : WindowState) (cfg : BuildConfig)
    (h : (start_pack f ab st).started = some cfg) :
    ∃ script, st.current_script = some script
      ∧ st.pyinstaller_available = true
      ∧ f script = true
      ∧ cfg = { script_path := script
                output_folder := pyJoin (pyDirname (ab script)) "输出"
                onefile := st.onefile_checked
                noconsole := st.noconsole_checked
                icon_path := if st.icon_text = "" then none
                             else some st.icon_text } := by
  unfold start_pack at h
  cases hs : st.current_script with
  | none => rw [hs] at h; simp at h
  | some script =>
    rw [hs] at h
    by_cases hp : st.pyinstaller_available = false
    · simp [hp] at h
    · have hp' : st.pyinstaller_available = true := by
        cases hb : st.pyinstaller_available
        · exact absurd hb hp
        · rfl
      by_cases hf : f script = false
      · simp [hp', hf] at h
      · have hf' : f script = true := by
          cases hb : f script
          · exact absurd hb hf
          · rfl
        simp [hp', hf'] at h
        exact ⟨script, rfl, hp', hf', h.symm⟩

/-- `pyJoin a b` always ends with `b`. -/
theorem pyJoin_suffix (a b : String) : ∃ pre, pyJoin a b = pre ++ b := by
  unfold pyJoin
  split
  · exact ⟨"", (String.empty_append b).symm⟩
  · split
    · exact ⟨a, rfl⟩
    · exact ⟨a ++ "/", rfl⟩

/-- C9: every build started by `start_pack` uses as `--distpath` the
`输出` subdirectory of the directory containing the selected script; it
depends only on the selected script, not on any other widget state. -/
theorem C9_output_folder (f : String → Bool) (ab : String → String)
    (st : WindowState) (cfg : BuildConfig)
    (h : (start_pack f ab st).started = some cfg) :
    cfg.output_folder = pyJoin (pyDirname (ab cfg.script_path)) "输出"
    ∧ (∃ pre, cfg.output_folder = pre ++ "输出")
    ∧ (∀ st2 cfg2, st2.current_script = st.current_script →
        (start_pack f ab st2).started = some cfg2 →
        cfg2.output_folder = cfg.output_folder) := by
  obtain ⟨script, hs, _, _, hcfg⟩ := start_pack_started_eq f ab st cfg h
  subst hcfg
  refine ⟨rfl, ?_, ?_⟩
  · show ∃ pre, pyJoin (pyDirname (ab script)) "输出" = pre ++ "输出"
    exact pyJoin_suffix (pyDirname (ab script)) "输出"
  intro st2 cfg2 hcs h2
  obtain ⟨script2, hs2, _, _, hcfg2⟩ := start_pack_started_eq f ab st2 cfg2 h2
  subst hcfg2
  have : some script2 = some script := hs2.symm.trans (hcs.trans hs)
  injection this with heq
  rw [heq]

/-- C9 witness: on the sample state the started build's output folder is
the `输出` subdirectory next to the script. -/
theorem C9_witness :
    (start_pack fsAll abId stSample).started = some cfgStarted
    ∧ cfgStarted.output_folder
        = pyJoin (pyDirname (abId cfgStarted.script_path)) "输出" := by
  have h : (start_pack fsAll abId stSample).started = some cfgStarted := by decide
  exact ⟨h, (C9_output_folder fsAll abId stSample cfgStarted h).1⟩

/-- C10: a nonexistent path ending in `.py` is accepted at selection time
(`on_file_dropped` records it and enables the pack button); `start_pack`
then returns early with a message box, starting no build thread and
leaving the window state — the selected script included — unchanged. -/
theorem C10_accept_then_reject (f : String → Bool) (ab : String → String)
    (st : WindowState) (p : String)
    (h1 : f p = false) (h2 : strEndsWith p ".py" = true) :
    (on_file_dropped f p st).current_script = some p
    ∧ (on_file_dropped f p st).pack_btn_enabled = true
    ∧ (start_pack f ab (on_file_dropped f p st)).started = none
    ∧ (start_pack f ab (on_file_dropped f p st)).warning.isSome = true
    ∧ (start_pack f ab (on_file_dropped f p st)).state = on_file_dropped f p st := by
  have hdropped : on_file_dropped f p st =
      { st with path_edit_text := p, current_script := some p,
                pack_btn_enabled := true } := by
    unfold on_file_dropped
    simp [h2]
  rw [hdropped]
  by_cases hp : st.pyinstaller_available = false
  · simp [start_pack, hp]
  · have hp' : st.pyinstaller_available = true := by
      cases hb : st.pyinstaller_available
      · exact absurd hb hp
      · rfl
    simp [start_pack, hp', h1]

/-- C10 witness: a nonexistent `ghost.py` is accepted, then rejected. -/
theorem C10_witness :
    (on_file_dropped fsNone "ghost.py" stSample).current_script = some "ghost.py"
    ∧ (start_pack fsNone abId (on_file_dropped fsNone "ghost.py" stSample)).started
        = none := by
  have h := C10_accept_then_reject fsNone abId stSample "ghost.py" (by decide) (by decide)
  exact ⟨h.1, h.2.2.1⟩

end PyPacker
